import Mathlib

/-!
# Verification of the IPB-UMKMcentre order / inventory / promo core

Shallow embedding of the domain entities (`Product`, `UMKM`, `Order`,
`OrderItem`, `Promo`) and of the `OrderService` orchestration
(`create_order`, `cancel_order`) from
`src/domain/entities/{product,umkm,order,promo}.py` and
`src/application/services/order_service.py`.

Modelling conventions:
* Python `float` money/amounts are modelled as `ℚ` (all arithmetic in the
  claims is exact); Python `int` as `ℤ`; `datetime` as an abstract
  instant `ℤ` ordered in the usual way, with the ambient clock passed
  explicitly as a `now` parameter wherever the source calls
  `datetime.utcnow()` in a comparison or stores it in a field.
* `created_at` / `updated_at` bookkeeping timestamps are omitted: no
  operation reads them and no claim mentions them.
* Methods that mutate `self` and may `raise ValueError` become functions
  `α → Except String α` returning the updated entity or the error message.
* The in-memory repositories (`InMemoryProductRepository` etc.) store
  deep copies in a `Dict[UUID, entity]` keyed by `entity.id`; they are
  modelled as association lists with first-match lookup and
  prepend-overwrite `save`, which is observationally the same store.
* Entity ids (`UUID`) are modelled as `Nat`; fields of the entities that
  no claim and no modelled operation reads (descriptions, categories,
  image urls, preorder flags, promo title/code) are omitted.
-/

set_option autoImplicit false

namespace UMKMcentre

/-- A keyed object store (`Dict[UUID, α]` in the source): association list,
`save` prepends (overwrites observationally), `findById` takes the first hit. -/
abbrev Store (α : Type) := List (Nat × α)

/-- `repository.find_by_id` -/
def findById {α : Type} (st : Store α) (k : Nat) : Option α :=
  (st.find? (fun kv => kv.1 == k)).map (·.2)

/-- `repository.save` (stores under the entity's own id, passed as `k`). -/
def save {α : Type} (st : Store α) (k : Nat) (v : α) : Store α :=
  (k, v) :: st

@[simp] theorem findById_save_self {α : Type} (st : Store α) (k : Nat) (v : α) :
    findById (save st k v) k = some v := by
  simp [findById, save]

theorem findById_save_ne {α : Type} (st : Store α) {k k' : Nat} (v : α)
    (h : k' ≠ k) : findById (save st k v) k' = findById st k' := by
  have hk : (k == k') = false := by
    simp
    exact fun h' => absurd h'.symm h
  simp [findById, save, List.find?, hk]

/-! ## Product (`src/domain/entities/product.py`) -/

/-- Product entity. `stock_quantity = none` means unlimited stock. -/
structure Product where
  id : Nat
  umkm_id : Nat
  name : String
  price : ℚ
  stock_quantity : Option ℤ
  is_available : Bool
deriving DecidableEq, Repr

/-- `Product.can_be_ordered` -/
def Product.can_be_ordered (p : Product) (quantity : ℤ) : Bool :=
  if !p.is_available then false
  else match p.stock_quantity with
    | none => true
    | some s => decide (quantity ≤ s)

/-- `Product.reduce_stock`: early-returns (no-op) on unlimited stock, then
re-checks `can_be_ordered` before decrementing. -/
def Product.reduce_stock (p : Product) (quantity : ℤ) : Except String Product :=
  match p.stock_quantity with
  | none => .ok p
  | some s =>
    if !p.can_be_ordered quantity then
      .error "Insufficient stock"
    else
      .ok { p with stock_quantity := some (s - quantity) }

/-- `Product.increase_stock`: rejects non-positive quantity, no-op on
unlimited stock. -/
def Product.increase_stock (p : Product) (quantity : ℤ) : Except String Product :=
  if quantity ≤ 0 then .error "Quantity must be positive"
  else match p.stock_quantity with
    | none => .ok p
    | some s => .ok { p with stock_quantity := some (s + quantity) }

/-! ## UMKM (`src/domain/entities/umkm.py`) -/

inductive UMKMStatus where
  | pending | active | suspended | closed
deriving DecidableEq, Repr

structure UMKM where
  id : Nat
  owner_id : Nat
  status : UMKMStatus
  rating_average : ℚ
  rating_count : ℤ
deriving DecidableEq, Repr

/-- `UMKM.can_accept_orders` -/
def UMKM.can_accept_orders (u : UMKM) : Bool :=
  u.status == .active

/-- `UMKM.update_rating`: running-mean fold of a new review score. -/
def UMKM.update_rating (u : UMKM) (new_rating : ℚ) : Except String UMKM :=
  if new_rating < 1 || 5 < new_rating then
    .error "Rating must be between 1 and 5"
  else
    let total_rating := u.rating_average * (u.rating_count : ℚ)
    .ok { u with
          rating_count := u.rating_count + 1
          rating_average := (total_rating + new_rating) / ((u.rating_count : ℚ) + 1) }

/-! ## Order (`src/domain/entities/order.py`) -/

inductive OrderStatus where
  | placed | confirmed | preparing | ready | completed | cancelled
deriving DecidableEq, Repr

/-- `OrderItem` value object (fields only; constructor validation is
`OrderItem.mk?`). -/
structure OrderItem where
  product_id : Nat
  product_name : String
  quantity : ℤ
  unit_price : ℚ
deriving DecidableEq, Repr

/-- `OrderItem.__init__` validation: positive quantity, positive unit price. -/
def OrderItem.mk? (product_id : Nat) (product_name : String)
    (quantity : ℤ) (unit_price : ℚ) : Except String OrderItem :=
  if quantity ≤ 0 then .error "Quantity must be positive"
  else if unit_price ≤ 0 then .error "Unit price must be positive"
  else .ok ⟨product_id, product_name, quantity, unit_price⟩

/-- `OrderItem.subtotal` -/
def OrderItem.subtotal (i : OrderItem) : ℚ :=
  (i.quantity : ℚ) * i.unit_price

structure Order where
  id : Nat
  buyer_id : Nat
  umkm_id : Nat
  items : List OrderItem
  status : OrderStatus
  pickup_time : Option ℤ
  notes : Option String
  total_amount : ℚ
  cancelled_at : Option ℤ
  cancellation_reason : Option String
deriving DecidableEq, Repr

/-- `Order._calculate_total` -/
def calculateTotal (items : List OrderItem) : ℚ :=
  (items.map OrderItem.subtotal).sum

/-- `Order.__init__` + `Order._validate`: computes the total when none is
supplied, then checks non-empty items, future pickup time, positive total. -/
def Order.create (id buyer_id umkm_id : Nat) (items : List OrderItem)
    (status : OrderStatus) (pickup_time : Option ℤ) (notes : Option String)
    (total_amount : Option ℚ) (now : ℤ) : Except String Order :=
  let total := total_amount.getD (calculateTotal items)
  if items.isEmpty then .error "Order must have at least one item"
  else if (match pickup_time with | some t => decide (t ≤ now) | none => false) then
    .error "Pickup time must be in the future"
  else if total ≤ 0 then .error "Order total must be positive"
  else .ok { id := id, buyer_id := buyer_id, umkm_id := umkm_id,
             items := items, status := status, pickup_time := pickup_time,
             notes := notes, total_amount := total,
             cancelled_at := none, cancellation_reason := none }

/-- `Order.can_be_cancelled` -/
def Order.can_be_cancelled (o : Order) : Bool :=
  !(o.status == .completed || o.status == .cancelled)

/-- `Order.can_be_confirmed` -/
def Order.can_be_confirmed (o : Order) : Bool :=
  o.status == .placed

/-- `Order.confirm` -/
def Order.confirm (o : Order) : Except String Order :=
  if !o.can_be_confirmed then .error "Cannot confirm order in this status"
  else .ok { o with status := .confirmed }

/-- `Order.mark_preparing` -/
def Order.mark_preparing (o : Order) : Except String Order :=
  if o.status ≠ .confirmed then .error "Only confirmed orders can be marked as preparing"
  else .ok { o with status := .preparing }

/-- `Order.mark_ready` -/
def Order.mark_ready (o : Order) : Except String Order :=
  if o.status ≠ .preparing then .error "Only preparing orders can be marked as ready"
  else .ok { o with status := .ready }

/-- `Order.complete` -/
def Order.complete (o : Order) : Except String Order :=
  if o.status ≠ .ready then .error "Only ready orders can be completed"
  else .ok { o with status := .completed }

/-- `Order.cancel` -/
def Order.cancel (o : Order) (reason : Option String) (now : ℤ) : Except String Order :=
  if !o.can_be_cancelled then .error "Cannot cancel order in this status"
  else .ok { o with status := .cancelled, cancelled_at := some now,
                    cancellation_reason := reason }

/-- The five state-machine triggers of §4.3, dispatching to the five `Order`
methods (as `OrderService.update_order_status` / `cancel_order` do). -/
inductive Trigger where
  | confirm | markPreparing | markReady | complete | cancel
deriving DecidableEq, Repr

def Order.applyTrigger (o : Order) (t : Trigger) (reason : Option String)
    (now : ℤ) : Except String Order :=
  match t with
  | .confirm => o.confirm
  | .markPreparing => o.mark_preparing
  | .markReady => o.mark_ready
  | .complete => o.complete
  | .cancel => o.cancel reason now

/-- A sequence of state-machine triggers applied in order, stopping at the
first rejection: the order's later lifecycle as driven by repeated
`OrderService.update_order_status` / `cancel_order` calls. -/
def Order.applyTriggerSeq (o : Order) :
    List (Trigger × Option String × ℤ) → Except String Order
  | [] => .ok o
  | (t, r, n) :: rest =>
    match o.applyTrigger t r n with
    | .error e => .error e
    | .ok o' => o'.applyTriggerSeq rest

/-- The §4.3 transition table of the spec, written from the spec's words:
`some s'` when the trigger is allowed (with `s'` the resulting state),
`none` when it must be rejected. -/
def specTransition : OrderStatus → Trigger → Option OrderStatus
  | .placed, .confirm => some .confirmed
  | .confirmed, .markPreparing => some .preparing
  | .preparing, .markReady => some .ready
  | .ready, .complete => some .completed
  | s, .cancel =>
      if s == .completed || s == .cancelled then none else some .cancelled
  | _, _ => none

/-! ## Promo (`src/domain/entities/promo.py`) -/

inductive PromoType where
  | percentage | fixed_amount | buy_one_get_one
deriving DecidableEq, Repr

structure Promo where
  id : Nat
  umkm_id : Nat
  promo_type : PromoType
  discount_value : ℚ
  valid_from : ℤ
  valid_until : ℤ
  min_purchase : Option ℚ
  max_discount : Option ℚ
  usage_limit : Option ℤ
  usage_count : ℤ
  is_active : Bool
deriving DecidableEq, Repr

/-- `Promo.is_valid` at instant `now` (the source defaults `current_time`
to `utcnow()`; here the clock is always passed explicitly). -/
def Promo.is_valid (p : Promo) (now : ℤ) : Bool :=
  if !p.is_active then false
  else if now < p.valid_from || p.valid_until < now then false
  else if (match p.usage_limit with
           | some l => decide (l ≤ p.usage_count)
           | none => false) then false
  else true

/-- `Promo.can_apply_to_order` -/
def Promo.can_apply_to_order (p : Promo) (now : ℤ) (order_amount : ℚ) : Bool :=
  if !p.is_valid now then false
  else if (match p.min_purchase with
           | some m => decide (order_amount < m)
           | none => false) then false
  else true

/-- `Promo.calculate_discount` -/
def Promo.calculate_discount (p : Promo) (now : ℤ) (order_amount : ℚ) : ℚ :=
  if !p.can_apply_to_order now order_amount then 0
  else match p.promo_type with
    | .percentage =>
        let discount := order_amount * (p.discount_value / 100)
        match p.max_discount with
        | some m => min discount m
        | none => discount
    | .fixed_amount => min p.discount_value order_amount
    | .buy_one_get_one => 0

/-- `Promo.increment_usage` -/
def Promo.increment_usage (p : Promo) : Except String Promo :=
  if (match p.usage_limit with
      | some l => decide (l ≤ p.usage_count)
      | none => false) then
    .error "Promo usage limit exceeded"
  else .ok { p with usage_count := p.usage_count + 1 }

/-! ## OrderService (`src/application/services/order_service.py`)

The service's repositories are passed as `Store` values and the evolving
product store is threaded through; a raised exception becomes an
`Except.error` returned *together with* the store as mutated so far
(repository writes before the exception persist, as in the source). -/

/-- Step 2 of `OrderService.create_order`: the per-line loop. For each
requested `(product_id, quantity)`: fetch, check merchant ownership and
`can_be_ordered`, snapshot an `OrderItem`, `reduce_stock`, save. -/
def processItems (products : Store Product) (umkm_id : Nat)
    (items : List (Nat × ℤ)) (acc : List OrderItem) :
    Store Product × Except String (List OrderItem) :=
  match items with
  | [] => (products, .ok acc)
  | (product_id, quantity) :: rest =>
    match findById products product_id with
    | none => (products, .error "Product not found")
    | some product =>
      if product.umkm_id ≠ umkm_id then
        (products, .error "Product does not belong to this UMKM")
      else if !product.can_be_ordered quantity then
        (products, .error "Product is not available in requested quantity")
      else
        match OrderItem.mk? product.id product.name quantity product.price with
        | .error e => (products, .error e)
        | .ok order_item =>
          match product.reduce_stock quantity with
          | .error e => (products, .error e)
          | .ok product' =>
              processItems (save products product.id product') umkm_id rest
                (acc ++ [order_item])

/-- `OrderService.create_order`. Returns the product store and the order
store as left after the call, together with the created order or the error. -/
def create_order (umkms : Store UMKM) (orders : Store Order)
    (products : Store Product) (buyer_id umkm_id : Nat)
    (items : List (Nat × ℤ)) (pickup_time : Option ℤ) (notes : Option String)
    (order_id : Nat) (now : ℤ) :
    Store Product × Store Order × Except String Order :=
  match findById umkms umkm_id with
  | none => (products, orders, .error "UMKM not found")
  | some umkm =>
    if !umkm.can_accept_orders then
      (products, orders, .error "UMKM is not accepting orders")
    else
      match processItems products umkm_id items [] with
      | (products', .error e) => (products', orders, .error e)
      | (products', .ok order_items) =>
        match Order.create order_id buyer_id umkm_id order_items .placed
            pickup_time notes none now with
        | .error e => (products', orders, .error e)
        | .ok order => (products', save orders order.id order, .ok order)

/-- The stock-restoration loop of `OrderService.cancel_order`: a line whose
product is no longer in the store is skipped silently. -/
def restoreItems (products : Store Product) (items : List OrderItem) :
    Store Product × Except String Unit :=
  match items with
  | [] => (products, .ok ())
  | item :: rest =>
    match findById products item.product_id with
    | none => restoreItems products rest
    | some product =>
      match product.increase_stock item.quantity with
      | .error e => (products, .error e)
      | .ok product' => restoreItems (save products product.id product') rest

/-- `OrderService.cancel_order`. -/
def cancel_order (umkms : Store UMKM) (orders : Store Order)
    (products : Store Product) (order_id user_id : Nat)
    (reason : Option String) (now : ℤ) :
    Store Product × Store Order × Except String Order :=
  match findById orders order_id with
  | none => (products, orders, .error "Order not found")
  | some order =>
    let is_buyer := order.buyer_id == user_id
    let is_seller := match findById umkms order.umkm_id with
      | some umkm => umkm.owner_id == user_id
      | none => false
    if !(is_buyer || is_seller) then
      (products, orders, .error "Unauthorized: You cannot cancel this order")
    else if !order.can_be_cancelled then
      (products, orders, .error "Order cannot be cancelled")
    else
      match restoreItems products order.items with
      | (products', .error e) => (products', orders, .error e)
      | (products', .ok _) =>
        match order.cancel reason now with
        | .error e => (products', orders, .error e)
        | .ok order' => (products', save orders order'.id order', .ok order')

/-! ## Concrete scenario entities used by example conjuncts, witnesses and
counterexamples -/

/-- An active merchant, owner `100`. -/
def uDemo : UMKM := ⟨1, 100, .active, 0, 0⟩

/-- A finite-stock product of merchant `1`: stock 5, price 3. -/
def pDemo : Product := ⟨10, 1, "Nasi", 3, some 5, true⟩

/-- An unavailable product with unlimited stock. -/
def pUnlimitedOff : Product := ⟨12, 1, "Es Teh", 5, none, false⟩

/-- A finite-stock product used as a generic witness input. -/
def pFin : Product := ⟨13, 1, "Soto", 4, some 4, true⟩

/-! ## C2 — the state machine matches the §4.3 table -/

/-- C2: for every order and trigger, the trigger succeeds exactly when the
§4.3 table allows it (`specTransition`), and then yields exactly the state
the table names; every other combination (including every trigger from the
terminal states `completed` and `cancelled`) fails with an
`InvalidTransition`-style error. The embedding is functional, so a failed
trigger returns no order and the order's status is untouched by
construction. -/
theorem state_machine_matches_spec_table (o : Order) (t : Trigger)
    (reason : Option String) (now : ℤ) :
    (o.applyTrigger t reason now).isOk = (specTransition o.status t).isSome ∧
    (∀ s' : OrderStatus, specTransition o.status t = some s' →
       ∃ o' : Order, o.applyTrigger t reason now = .ok o' ∧ o'.status = s') := by
  rcases o with ⟨id, bid, uid, items, status, pt, notes, total, ca, cr⟩
  cases status <;> cases t <;>
    simp [Order.applyTrigger, Order.confirm, Order.mark_preparing,
      Order.mark_ready, Order.complete, Order.cancel, Order.can_be_confirmed,
      Order.can_be_cancelled, specTransition, Except.isOk, Except.toBool]

/-- Witness for C2: the `placed --confirm--> confirmed` row, instantiated on a
concrete order. -/
theorem state_machine_matches_spec_table_witness :
    ∃ o' : Order,
      Order.applyTrigger
        ⟨50, 7, 1, [⟨10, "Nasi", 2, 3⟩], .placed, none, none, 6, none, none⟩
        .confirm none 0 = .ok o' ∧ o'.status = .confirmed :=
  (state_machine_matches_spec_table
      ⟨50, 7, 1, [⟨10, "Nasi", 2, 3⟩], .placed, none, none, 6, none, none⟩
      .confirm none 0).2 .confirmed rfl

/-! ## C3 — `reduce_stock` vs `can_be_ordered` -/

/-- C3 counterexample: the claim says `reserve(quantity)` fails exactly when
`canReserve(quantity)` is false at call time. On an *unavailable* product
with *unlimited* stock, `can_be_ordered 1` is false yet `reduce_stock 1`
succeeds (the source early-returns on unlimited stock before the
availability re-check). -/
theorem reduce_stock_unavailable_unlimited_counterexample :
    ((0:ℤ) < 1) ∧
    pUnlimitedOff.can_be_ordered 1 = false ∧
    pUnlimitedOff.reduce_stock 1 = .ok pUnlimitedOff := by
  refine ⟨by norm_num, ?_, ?_⟩ <;> rfl

/-- C3 amended: for every positive quantity, `reduce_stock` fails (with the
insufficient-stock error) exactly when the stock is *finite* and
`can_be_ordered` is false; on unlimited stock it is a no-op regardless of
availability; on finite stock with `can_be_ordered` true it decrements the
stock by the quantity. -/
theorem reduce_stock_spec (p : Product) (q : ℤ) (_hq : 0 < q) :
    ((p.reduce_stock q).isOk = false ↔
       (p.stock_quantity ≠ none ∧ p.can_be_ordered q = false)) ∧
    (p.stock_quantity = none → p.reduce_stock q = .ok p) ∧
    (∀ s : ℤ, p.stock_quantity = some s → p.can_be_ordered q = true →
       p.reduce_stock q = .ok { p with stock_quantity := some (s - q) }) := by
  refine ⟨?_, ?_, ?_⟩
  · rcases hs : p.stock_quantity with _ | s <;>
      simp [Product.reduce_stock, hs, Except.isOk, Except.toBool]
    by_cases hc : p.can_be_ordered q = true <;> simp [hc]
  · intro hs
    simp [Product.reduce_stock, hs]
  · intro s hs hc
    simp [Product.reduce_stock, hs, hc]

/-- Witness for C3 (amended): a concrete available product with finite stock
4 loses exactly 1 unit when reserving 1. -/
theorem reduce_stock_spec_witness :
    pFin.reduce_stock 1
      = .ok { pFin with stock_quantity := some ((4:ℤ) - 1) } :=
  (reduce_stock_spec pFin 1 (by norm_num)).2.2 4 rfl rfl

/-! ## C4 — total computed once from the lines, immutable under triggers -/

/-- Every single state-machine trigger, applied to *any* order in *any*
state, preserves `total_amount` and the line list when it succeeds: the five
`Order` methods only rewrite status/cancellation fields. -/
theorem applyTrigger_preserves_total_items (o : Order) (t : Trigger)
    (r : Option String) (now : ℤ) (o' : Order)
    (h : o.applyTrigger t r now = .ok o') :
    o'.total_amount = o.total_amount ∧ o'.items = o.items := by
  cases t <;>
    simp only [Order.applyTrigger, Order.confirm, Order.mark_preparing,
      Order.mark_ready, Order.complete, Order.cancel] at h <;>
    split at h <;>
    (cases h <;> exact ⟨rfl, rfl⟩)

/-- Any successful *sequence* of triggers (the order's whole later
lifecycle) preserves `total_amount` and the line list. -/
theorem applyTriggerSeq_preserves_total_items :
    ∀ (ts : List (Trigger × Option String × ℤ)) (o o' : Order),
    o.applyTriggerSeq ts = .ok o' →
    o'.total_amount = o.total_amount ∧ o'.items = o.items := by
  intro ts
  induction ts with
  | nil =>
    intro o o' h
    cases h
    exact ⟨rfl, rfl⟩
  | cons trn rest ih =>
    obtain ⟨t, r, n⟩ := trn
    intro o o' h
    simp only [Order.applyTriggerSeq] at h
    rcases h1 : o.applyTrigger t r n with e | o₁ <;> rw [h1] at h
    · exact absurd h (by simp)
    · obtain ⟨ht, hi⟩ := applyTrigger_preserves_total_items o t r n o₁ h1
      obtain ⟨ht', hi'⟩ := ih o₁ o' h
      exact ⟨ht'.trans ht, hi'.trans hi⟩

/-- C4: an order constructed (status `placed`, as `create_order` does)
without an explicitly supplied total has `total_amount` equal to the exact
sum of `quantity * unit_price` over its lines and keeps exactly those lines;
and after *any* later succession of state-machine triggers — confirm,
markPreparing, markReady, complete, cancel, applied at any point of the
lifecycle — the surviving order still has that same `total_amount` and line
list. -/
theorem total_amount_from_lines_and_immutable
    (id buyer_id umkm_id : Nat) (items : List OrderItem)
    (pickup_time : Option ℤ) (notes : Option String) (now : ℤ) (o : Order)
    (h : Order.create id buyer_id umkm_id items .placed pickup_time notes
           none now = .ok o) :
    o.total_amount = (items.map (fun i => (i.quantity : ℚ) * i.unit_price)).sum ∧
    o.items = items ∧
    (∀ (ts : List (Trigger × Option String × ℤ)) (o' : Order),
       o.applyTriggerSeq ts = .ok o' →
       o'.total_amount
           = (items.map (fun i => (i.quantity : ℚ) * i.unit_price)).sum ∧
       o'.items = items) := by
  have hmap : (items.map (fun i => (i.quantity : ℚ) * i.unit_price))
      = items.map OrderItem.subtotal := by
    simp [OrderItem.subtotal]
  unfold Order.create at h
  simp only [Option.getD] at h
  split at h
  · exact absurd h (by simp)
  · split at h
    · exact absurd h (by simp)
    · split at h
      · exact absurd h (by simp)
      · cases h
        refine ⟨by simp [hmap, calculateTotal], rfl, ?_⟩
        intro ts o' h'
        obtain ⟨ht, hi⟩ := applyTriggerSeq_preserves_total_items ts _ o' h'
        exact ⟨by rw [ht]; simp [hmap, calculateTotal], hi⟩

/-- Witness for C4: a two-line order has total `2*3 + 1*4 = 10`, keeps its
lines, and still shows both after the full successful lifecycle
confirm → markPreparing → markReady → complete. -/
theorem total_amount_from_lines_and_immutable_witness :
    ∃ o : Order,
      Order.create 50 7 1 [⟨10, "Nasi", 2, 3⟩, ⟨11, "Soto", 1, 4⟩] .placed
          none none none 0 = .ok o ∧
      o.total_amount
        = (([⟨10, "Nasi", 2, 3⟩, ⟨11, "Soto", 1, 4⟩] : List OrderItem).map
            (fun i => (i.quantity : ℚ) * i.unit_price)).sum ∧
      o.items = [⟨10, "Nasi", 2, 3⟩, ⟨11, "Soto", 1, 4⟩] ∧
      ∃ o' : Order,
        o.applyTriggerSeq [(.confirm, none, 1), (.markPreparing, none, 2),
            (.markReady, none, 3), (.complete, none, 4)] = .ok o' ∧
        o'.status = .completed ∧
        o'.total_amount
          = (([⟨10, "Nasi", 2, 3⟩, ⟨11, "Soto", 1, 4⟩] : List OrderItem).map
              (fun i => (i.quantity : ℚ) * i.unit_price)).sum ∧
        o'.items = [⟨10, "Nasi", 2, 3⟩, ⟨11, "Soto", 1, 4⟩] := by
  have h : Order.create 50 7 1 [⟨10, "Nasi", 2, 3⟩, ⟨11, "Soto", 1, 4⟩] .placed
      none none none 0
      = .ok { id := 50, buyer_id := 7, umkm_id := 1,
              items := [⟨10, "Nasi", 2, 3⟩, ⟨11, "Soto", 1, 4⟩],
              status := .placed, pickup_time := none, notes := none,
              total_amount := 10, cancelled_at := none,
              cancellation_reason := none } := by
    norm_num [Order.create, calculateTotal, OrderItem.subtotal]
  have hthm := total_amount_from_lines_and_immutable 50 7 1 _ none none 0 _ h
  have hseq : Order.applyTriggerSeq
      { id := 50, buyer_id := 7, umkm_id := 1,
        items := [⟨10, "Nasi", 2, 3⟩, ⟨11, "Soto", 1, 4⟩],
        status := .placed, pickup_time := none, notes := none,
        total_amount := 10, cancelled_at := none,
        cancellation_reason := none }
      [(.confirm, none, 1), (.markPreparing, none, 2),
       (.markReady, none, 3), (.complete, none, 4)]
      = .ok { id := 50, buyer_id := 7, umkm_id := 1,
              items := [⟨10, "Nasi", 2, 3⟩, ⟨11, "Soto", 1, 4⟩],
              status := .completed, pickup_time := none, notes := none,
              total_amount := 10, cancelled_at := none,
              cancellation_reason := none } := rfl
  exact ⟨_, h, hthm.1, hthm.2.1,
    _, hseq, rfl, (hthm.2.2 _ _ hseq).1, (hthm.2.2 _ _ hseq).2⟩

/-! ## C5 — discount calculation -/

/-- The §8 Percentage example promo: 10% off, capped at 2000, window
`[0, 100]`, no minimum purchase, no usage limit. -/
def pctPromo : Promo := ⟨1, 1, .percentage, 10, 0, 100, none, some 2000, none, 0, true⟩

/-- The §8 FixedAmount example promo: 10000 off, window `[0, 100]`. -/
def fixPromo : Promo := ⟨2, 1, .fixed_amount, 10000, 0, 100, none, none, none, 0, true⟩

/-- C5: `calculate_discount` returns 0 when `can_apply_to_order` is false;
otherwise a Percentage promo yields `amount * discountValue/100` capped at
`maxDiscount` when set, a FixedAmount promo yields
`min(discountValue, amount)` (so never more than the order amount), and a
BOGO promo yields 0. The two §8 examples are included: percentage 10%
capped at 2000 on 50000 gives 2000; fixed 10000 on 8000 gives 8000. -/
theorem calculate_discount_spec :
    (∀ (p : Promo) (now : ℤ) (amt : ℚ),
       p.calculate_discount now amt =
         if p.can_apply_to_order now amt then
           match p.promo_type with
           | .percentage =>
               match p.max_discount with
               | some m => min (amt * (p.discount_value / 100)) m
               | none => amt * (p.discount_value / 100)
           | .fixed_amount => min p.discount_value amt
           | .buy_one_get_one => 0
         else 0) ∧
    (∀ (p : Promo) (now : ℤ) (amt : ℚ),
       p.promo_type = .fixed_amount → p.can_apply_to_order now amt = true →
       p.calculate_discount now amt ≤ amt) ∧
    pctPromo.calculate_discount 50 50000 = 2000 ∧
    fixPromo.calculate_discount 50 8000 = 8000 := by
  have hmain : ∀ (p : Promo) (now : ℤ) (amt : ℚ),
      p.calculate_discount now amt =
        if p.can_apply_to_order now amt then
          match p.promo_type with
          | .percentage =>
              match p.max_discount with
              | some m => min (amt * (p.discount_value / 100)) m
              | none => amt * (p.discount_value / 100)
          | .fixed_amount => min p.discount_value amt
          | .buy_one_get_one => 0
        else 0 := by
    intro p now amt
    by_cases hc : p.can_apply_to_order now amt = true
    · cases hp : p.promo_type <;>
        rcases hm : p.max_discount with _ | m <;>
        simp [Promo.calculate_discount, hc, hp, hm]
    · simp [Promo.calculate_discount, Bool.eq_false_iff.mpr hc]
  refine ⟨hmain, ?_, ?_, ?_⟩
  · intro p now amt hp hc
    rw [hmain p now amt]
    simp [hc, hp, min_le_right]
  · rw [hmain]
    norm_num [Promo.can_apply_to_order, Promo.is_valid, pctPromo]
  · rw [hmain]
    norm_num [Promo.can_apply_to_order, Promo.is_valid, fixPromo]

/-- Witness for C5: the fixed-amount bound instantiated — the §8 fixed
promo never discounts more than the 8000 order amount. -/
theorem calculate_discount_spec_witness :
    fixPromo.calculate_discount 50 8000 ≤ 8000 :=
  calculate_discount_spec.2.1 fixPromo 50 8000 rfl
    (by norm_num [Promo.can_apply_to_order, Promo.is_valid, fixPromo])

/-! ## C6 — usage limits -/

/-- An exhausted promo: limit 1, already used once. -/
def limPromo : Promo := ⟨3, 1, .fixed_amount, 500, 0, 100, none, none, some 1, 1, true⟩

/-- The same promo before its single use. -/
def limPromoFresh : Promo := ⟨3, 1, .fixed_amount, 500, 0, 100, none, none, some 1, 0, true⟩

/-- C6: with a usage limit set, `increment_usage` increments the count while
it is below the limit (so the count never exceeds the limit), and fails with
the usage-limit error leaving the promo unchanged once the count has reached
the limit; such an exhausted promo is invalid at every instant and yields a
zero discount for every order amount. -/
theorem promo_usage_limit_spec (p : Promo) (l : ℤ)
    (h : p.usage_limit = some l) :
    (p.usage_count < l →
       p.increment_usage = .ok { p with usage_count := p.usage_count + 1 }) ∧
    (p.usage_count < l → p.usage_count + 1 ≤ l) ∧
    (l ≤ p.usage_count →
       p.increment_usage = .error "Promo usage limit exceeded") ∧
    (∀ now : ℤ, l ≤ p.usage_count → p.is_valid now = false) ∧
    (∀ (now : ℤ) (amt : ℚ), l ≤ p.usage_count →
       p.calculate_discount now amt = 0) := by
  refine ⟨?_, ?_, ?_, ?_, ?_⟩
  · intro hlt
    simp [Promo.increment_usage, h, not_le.mpr hlt]
  · omega
  · intro hge
    simp [Promo.increment_usage, h, hge]
  · intro now hge
    simp [Promo.is_valid, h, hge]
  · intro now amt hge
    simp [Promo.calculate_discount, Promo.can_apply_to_order,
      Promo.is_valid, h, hge]

/-- Witness for C6: the concrete limit-1 promo — fresh use succeeds and
reaches the limit; the exhausted promo rejects further use, is invalid and
gives zero discount. -/
theorem promo_usage_limit_spec_witness :
    limPromoFresh.increment_usage
      = .ok { limPromoFresh with usage_count := limPromoFresh.usage_count + 1 } ∧
    limPromo.increment_usage = .error "Promo usage limit exceeded" ∧
    limPromo.is_valid 50 = false ∧
    limPromo.calculate_discount 50 9999 = 0 :=
  ⟨(promo_usage_limit_spec limPromoFresh 1 rfl).1 (by norm_num [limPromoFresh]),
   (promo_usage_limit_spec limPromo 1 rfl).2.2.1 (by norm_num [limPromo]),
   (promo_usage_limit_spec limPromo 1 rfl).2.2.2.1 50 (by norm_num [limPromo]),
   (promo_usage_limit_spec limPromo 1 rfl).2.2.2.2 50 9999 (by norm_num [limPromo])⟩

/-! ## C7 — rating aggregation -/

/-- A merchant with no ratings yet. -/
def mFresh : UMKM := ⟨2, 100, .active, 0, 0⟩

/-- `mFresh` after recording a 5. -/
def mAfter5 : UMKM := ⟨2, 100, .active, 5, 1⟩

/-- `mAfter5` after recording a 3. -/
def mAfter53 : UMKM := ⟨2, 100, .active, 4, 2⟩

/-- C7: `update_rating` with a score in `[1,5]` folds the score into the
running mean `(oldAverage*oldCount + score)/(oldCount+1)` and increments the
count; a score outside `[1,5]` fails with the invalid-rating error (the
functional embedding returns no entity on failure, so average and count are
untouched). The §8 sequence 5 then 3 from `(average 0, count 0)` gives
average 5 then average 4. -/
theorem update_rating_spec (u : UMKM) (s : ℚ) :
    (1 ≤ s → s ≤ 5 →
       u.update_rating s
         = .ok { u with
                 rating_count := u.rating_count + 1
                 rating_average :=
                   (u.rating_average * (u.rating_count : ℚ) + s)
                     / ((u.rating_count : ℚ) + 1) }) ∧
    ((s < 1 ∨ 5 < s) →
       u.update_rating s = .error "Rating must be between 1 and 5") ∧
    mFresh.update_rating 5 = .ok mAfter5 ∧
    mAfter5.update_rating 3 = .ok mAfter53 := by
  refine ⟨?_, ?_, ?_, ?_⟩
  · intro h1 h5
    simp [UMKM.update_rating, not_lt.mpr h1, not_lt.mpr h5]
  · intro h
    rcases h with h | h <;> simp [UMKM.update_rating, h]
  · norm_num [UMKM.update_rating, mFresh, mAfter5, UMKM.mk.injEq]
  · norm_num [UMKM.update_rating, mAfter5, mAfter53, UMKM.mk.injEq]

/-- Witness for C7: recording a 4 on a merchant at (average 3, count 2)
yields the running mean `(3*2+4)/3`. -/
theorem update_rating_spec_witness :
    UMKM.update_rating ⟨2, 9, .active, 3, 2⟩ 4
      = .ok { (⟨2, 9, .active, 3, 2⟩ : UMKM) with
              rating_count := (2:ℤ) + 1
              rating_average :=
                ((3:ℚ) * ((2:ℤ) : ℚ) + 4) / (((2:ℤ) : ℚ) + 1) } :=
  (update_rating_spec ⟨2, 9, .active, 3, 2⟩ 4).1 (by norm_num) (by norm_num)

/-! ## C8 — cancelling a terminal order has no effect -/

/-- C8: cancelling an order that is already `completed` (or `cancelled`),
by an authorized caller (here the buyer), fails with the cannot-cancel error
and returns the product store and order store exactly as given: the
can-cancel check precedes the restoration loop, so no stock moves and no
order is rewritten. -/
theorem cancel_terminal_order_no_effect (umkms : Store UMKM)
    (orders : Store Order) (products : Store Product)
    (order_id user_id : Nat) (reason : Option String) (now : ℤ) (o : Order)
    (ho : findById orders order_id = some o)
    (hb : o.buyer_id = user_id)
    (hs : o.status = .completed ∨ o.status = .cancelled) :
    cancel_order umkms orders products order_id user_id reason now
      = (products, orders, .error "Order cannot be cancelled") := by
  have hcc : o.can_be_cancelled = false := by
    rcases hs with h | h <;> simp [Order.can_be_cancelled, h]
  unfold cancel_order
  rw [ho]
  simp [hb, hcc]

/-- Witness for C8: a concrete completed order in a one-order store; its
buyer's cancellation attempt leaves both stores untouched. -/
theorem cancel_terminal_order_no_effect_witness :
    cancel_order [(1, uDemo)]
        [(60, ⟨60, 7, 1, [⟨10, "Nasi", 2, 3⟩], .completed, none, none, 6,
               none, none⟩)]
        [(10, pDemo)] 60 7 none 99
      = ([(10, pDemo)],
         [(60, ⟨60, 7, 1, [⟨10, "Nasi", 2, 3⟩], .completed, none, none, 6,
                none, none⟩)],
         .error "Order cannot be cancelled") :=
  cancel_terminal_order_no_effect [(1, uDemo)] _ [(10, pDemo)] 60 7 none 99
    ⟨60, 7, 1, [⟨10, "Nasi", 2, 3⟩], .completed, none, none, 6, none, none⟩
    rfl rfl (Or.inl rfl)

/-! ## C9 — `create_order` is not atomic across lines -/

/-- C9: a two-line request whose second line names a missing product (`11`)
fails with the product-not-found error, yet the first line's reservation on
product `10` (stock 5 → 3) is left in the returned product store — the
partial reservation is not rolled back. -/
theorem create_order_partial_reservation_on_failure :
    create_order [(1, uDemo)] [] [(10, pDemo)] 7 1 [(10, 2), (11, 1)]
        none none 50 0
      = (save [(10, pDemo)] 10 { pDemo with stock_quantity := some 3 }, [],
         .error "Product not found") ∧
    findById (create_order [(1, uDemo)] [] [(10, pDemo)] 7 1 [(10, 2), (11, 1)]
        none none 50 0).1 10
      = some { pDemo with stock_quantity := some 3 } ∧
    pDemo.stock_quantity = some 5 := by
  refine ⟨?_, ?_, rfl⟩ <;>
    norm_num [create_order, processItems, findById, save, uDemo, pDemo,
      UMKM.can_accept_orders, Product.can_be_ordered, Product.reduce_stock,
      OrderItem.mk?]

/-! ## C10 — cancellation silently skips lines whose product is gone -/

/-- The order used for C10: two lines, one of whose products (`11`) is not
in the product store at cancellation time. -/
def oGone : Order :=
  ⟨61, 7, 1, [⟨10, "Nasi", 2, 3⟩, ⟨11, "Soto", 1, 4⟩], .placed, none, none,
   10, none, none⟩

/-- C10: cancelling `oGone` with product `11` absent from the store still
succeeds — the restoration loop restores product `10` (stock 5 → 7),
silently skips the missing product `11` (no stock restored, no error), and
the order is cancelled. -/
theorem cancel_order_skips_missing_products :
    cancel_order [(1, uDemo)] [(61, oGone)] [(10, pDemo)] 61 7 none 99
      = (save [(10, pDemo)] 10 { pDemo with stock_quantity := some 7 },
         save [(61, oGone)] 61
           { oGone with status := .cancelled, cancelled_at := some 99 },
         .ok { oGone with status := .cancelled, cancelled_at := some 99 }) ∧
    findById (cancel_order [(1, uDemo)] [(61, oGone)] [(10, pDemo)]
        61 7 none 99).1 11 = none := by
  exact ⟨rfl, rfl⟩

/-! ## C1 — reserve-then-restore round trip

Loop invariants for the per-line reservation loop of `create_order` and the
restoration loop of `cancel_order`. -/

/-- Precondition on one requested line `(product_id, quantity)` of a create
request: the product exists in the store under its own id, belongs to the
target merchant, is available, has finite stock at least `quantity`, and the
quantity and the price are positive. -/
def LinePre (products : Store Product) (umkm_id : Nat) (pq : Nat × ℤ) : Prop :=
  ∃ (p : Product) (s : ℤ),
    findById products pq.1 = some p ∧ p.id = pq.1 ∧ p.umkm_id = umkm_id ∧
    p.is_available = true ∧ p.stock_quantity = some s ∧
    0 < pq.2 ∧ pq.2 ≤ s ∧ 0 < p.price

/-- The reservation loop of `create_order`, on distinct product ids all
satisfying `LinePre`: it succeeds, returns one `OrderItem` per request line
(with positive quantity and price), decrements each named product's stock by
exactly the requested quantity, and touches no other key. -/
theorem processItems_ok (umkm_id : Nat) :
    ∀ (items : List (Nat × ℤ)) (products : Store Product) (acc : List OrderItem),
    (items.map Prod.fst).Nodup →
    (∀ pq ∈ items, LinePre products umkm_id pq) →
    ∃ (products' : Store Product) (ois : List OrderItem),
      processItems products umkm_id items acc = (products', .ok (acc ++ ois)) ∧
      ois.map (fun oi => (oi.product_id, oi.quantity)) = items ∧
      (∀ oi ∈ ois, 0 < oi.quantity ∧ 0 < oi.unit_price) ∧
      (∀ k : Nat, k ∉ items.map Prod.fst →
         findById products' k = findById products k) ∧
      (∀ pq ∈ items, ∃ (p : Product) (s : ℤ),
         findById products pq.1 = some p ∧ p.id = pq.1 ∧
         p.stock_quantity = some s ∧
         findById products' pq.1
           = some { p with stock_quantity := some (s - pq.2) }) := by
  intro items
  induction items with
  | nil =>
    intro products acc _ _
    exact ⟨products, [], by simp [processItems], rfl, by simp, fun k _ => rfl,
      by simp⟩
  | cons pq rest ih =>
    obtain ⟨pid, qty⟩ := pq
    intro products acc hnd hpre
    obtain ⟨p, s, hfind, hid, humkm, havail, hstock, hqpos, hqle, hppos⟩ :=
      hpre (pid, qty) (List.mem_cons_self _ _)
    have hnd' : (rest.map Prod.fst).Nodup := (List.nodup_cons.mp hnd).2
    have hnotin : pid ∉ rest.map Prod.fst := (List.nodup_cons.mp hnd).1
    have hcan : p.can_be_ordered qty = true := by
      simp [Product.can_be_ordered, havail, hstock]
      exact hqle
    have hmk : OrderItem.mk? p.id p.name qty p.price
        = .ok ⟨p.id, p.name, qty, p.price⟩ := by
      simp [OrderItem.mk?, not_le.mpr hqpos, not_le.mpr hppos]
    have hred : p.reduce_stock qty
        = .ok { p with stock_quantity := some (s - qty) } := by
      simp [Product.reduce_stock, hstock, hcan]
    have hstep : processItems products umkm_id ((pid, qty) :: rest) acc
        = processItems (save products p.id { p with stock_quantity := some (s - qty) })
            umkm_id rest (acc ++ [⟨p.id, p.name, qty, p.price⟩]) := by
      simp [processItems, hfind, humkm, hcan, hmk, hred]
    set products₁ :=
      save products p.id { p with stock_quantity := some (s - qty) } with hp₁
    have hpre₁ : ∀ pq ∈ rest, LinePre products₁ umkm_id pq := by
      intro pq hmem
      have hne : pq.1 ≠ pid := by
        intro hcontra
        exact hnotin (hcontra ▸ List.mem_map_of_mem Prod.fst hmem)
      have htrans : findById products₁ pq.1 = findById products pq.1 :=
        findById_save_ne products _ (hid ▸ hne)
      obtain ⟨p', s', h1, h2, h3, h4, h5, h6, h7, h8⟩ := hpre pq (List.mem_cons_of_mem _ hmem)
      exact ⟨p', s', htrans ▸ h1, h2, h3, h4, h5, h6, h7, h8⟩
    obtain ⟨products', ois', heq, hmap, hpos, hunch, hper⟩ :=
      ih products₁ (acc ++ [⟨p.id, p.name, qty, p.price⟩]) hnd' hpre₁
    refine ⟨products', ⟨p.id, p.name, qty, p.price⟩ :: ois', ?_, ?_, ?_, ?_, ?_⟩
    · rw [hstep, heq]
      simp
    · simp [hmap, hid]
    · intro oi hoi
      rcases List.mem_cons.mp hoi with hoi | hoi
      · subst hoi
        exact ⟨hqpos, hppos⟩
      · exact hpos oi hoi
    · intro k hk
      have hk₁ : k ∉ rest.map Prod.fst := fun h => hk (List.mem_cons_of_mem _ h)
      have hk₂ : k ≠ pid := fun h => hk (h ▸ List.mem_cons_self _ _)
      rw [hunch k hk₁, hp₁, findById_save_ne products _ (hid ▸ hk₂)]
    · intro pq hmem
      rcases List.mem_cons.mp hmem with hmem | hmem
      · subst hmem
        refine ⟨p, s, hfind, hid, hstock, ?_⟩
        show findById products' pid = some { p with stock_quantity := some (s - qty) }
        rw [hunch pid hnotin, hp₁, hid, findById_save_self]
      · obtain ⟨p', s', h1, h2, h3, h4⟩ := hper pq hmem
        have hne : pq.1 ≠ pid := by
          intro hcontra
          exact hnotin (hcontra ▸ List.mem_map_of_mem Prod.fst hmem)
        have htrans : findById products₁ pq.1 = findById products pq.1 :=
          findById_save_ne products _ (hid ▸ hne)
        exact ⟨p', s', htrans ▸ h1, h2, h3, h4⟩

/-- The restoration loop of `cancel_order`, on lines with distinct product
ids whose products are all present (under their own ids) with finite stock
and positive line quantities: it succeeds, increments each named product's
stock by exactly the line quantity, and touches no other key. -/
theorem restoreItems_ok :
    ∀ (ois : List OrderItem) (products : Store Product),
    (ois.map OrderItem.product_id).Nodup →
    (∀ oi ∈ ois, ∃ (p : Product) (s : ℤ),
       findById products oi.product_id = some p ∧ p.id = oi.product_id ∧
       p.stock_quantity = some s ∧ 0 < oi.quantity) →
    ∃ products' : Store Product,
      restoreItems products ois = (products', .ok ()) ∧
      (∀ k : Nat, k ∉ ois.map OrderItem.product_id →
         findById products' k = findById products k) ∧
      (∀ oi ∈ ois, ∃ (p : Product) (s : ℤ),
         findById products oi.product_id = some p ∧
         p.stock_quantity = some s ∧
         findById products' oi.product_id
           = some { p with stock_quantity := some (s + oi.quantity) }) := by
  intro ois
  induction ois with
  | nil =>
    intro products _ _
    exact ⟨products, by simp [restoreItems], fun k _ => rfl, by simp⟩
  | cons oi rest ih =>
    intro products hnd hpre
    obtain ⟨p, s, hfind, hid, hstock, hqpos⟩ := hpre oi (List.mem_cons_self _ _)
    have hnd' : (rest.map OrderItem.product_id).Nodup := (List.nodup_cons.mp hnd).2
    have hnotin : oi.product_id ∉ rest.map OrderItem.product_id :=
      (List.nodup_cons.mp hnd).1
    have hinc : p.increase_stock oi.quantity
        = .ok { p with stock_quantity := some (s + oi.quantity) } := by
      simp [Product.increase_stock, hstock, not_le.mpr hqpos]
    have hstep : restoreItems products (oi :: rest)
        = restoreItems
            (save products p.id { p with stock_quantity := some (s + oi.quantity) })
            rest := by
      simp [restoreItems, hfind, hinc]
    set products₁ :=
      save products p.id { p with stock_quantity := some (s + oi.quantity) } with hp₁
    have hpre₁ : ∀ oi' ∈ rest, ∃ (p' : Product) (s' : ℤ),
        findById products₁ oi'.product_id = some p' ∧ p'.id = oi'.product_id ∧
        p'.stock_quantity = some s' ∧ 0 < oi'.quantity := by
      intro oi' hmem
      have hne : oi'.product_id ≠ oi.product_id := by
        intro hcontra
        exact hnotin (hcontra ▸ List.mem_map_of_mem OrderItem.product_id hmem)
      have htrans : findById products₁ oi'.product_id
          = findById products oi'.product_id :=
        findById_save_ne products _ (hid ▸ hne)
      obtain ⟨p', s', h1, h2, h3, h4⟩ := hpre oi' (List.mem_cons_of_mem _ hmem)
      exact ⟨p', s', htrans ▸ h1, h2, h3, h4⟩
    obtain ⟨products', heq, hunch, hper⟩ := ih products₁ hnd' hpre₁
    refine ⟨products', ?_, ?_, ?_⟩
    · rw [hstep, heq]
    · intro k hk
      have hk₁ : k ∉ rest.map OrderItem.product_id :=
        fun h => hk (List.mem_cons_of_mem _ h)
      have hk₂ : k ≠ oi.product_id := fun h => hk (h ▸ List.mem_cons_self _ _)
      rw [hunch k hk₁, hp₁, findById_save_ne products _ (hid ▸ hk₂)]
    · intro oi' hmem
      rcases List.mem_cons.mp hmem with hmem | hmem
      · subst hmem
        refine ⟨p, s, hfind, hstock, ?_⟩
        rw [hunch oi'.product_id hnotin, hp₁, hid, findById_save_self]
      · obtain ⟨p', s', h1, h2, h3⟩ := hper oi' hmem
        have hne : oi'.product_id ≠ oi.product_id := by
          intro hcontra
          exact hnotin (hcontra ▸ List.mem_map_of_mem OrderItem.product_id hmem)
        have htrans : findById products₁ oi'.product_id
            = findById products oi'.product_id :=
          findById_save_ne products _ (hid ▸ hne)
        exact ⟨p', s', htrans ▸ h1, h2, h3⟩

/-- `Order.create` succeeds on a non-empty line list with positive computed
total (no explicit total, no pickup time), yielding exactly the record with
the computed total. -/
theorem order_create_ok (id buyer_id umkm_id : Nat) (items : List OrderItem)
    (notes : Option String) (now : ℤ) (hne : items ≠ [])
    (htot : 0 < calculateTotal items) :
    Order.create id buyer_id umkm_id items .placed none notes none now
      = .ok ⟨id, buyer_id, umkm_id, items, .placed, none, notes,
             calculateTotal items, none, none⟩ := by
  have h1 : items.isEmpty = false := by
    cases items with
    | nil => exact absurd rfl hne
    | cons a l => rfl
  simp [Order.create, h1, not_le.mpr htot]

/-- C1: on an Active merchant, for a request whose lines name distinct
products that all exist, belong to the merchant, are available and have
sufficient *finite* stock (with positive quantities and prices),
`create_order` succeeds and leaves each named product's stock reduced by
exactly the requested line quantity; a subsequent authorized `cancel_order`
(by the buyer) on the created order succeeds and restores every named
product's stock to its pre-order value. -/
theorem create_then_cancel_restores_stock
    (umkms : Store UMKM) (orders : Store Order) (products : Store Product)
    (buyer_id umkm_id order_id : Nat) (items : List (Nat × ℤ))
    (notes reason : Option String) (now now' : ℤ) (u : UMKM)
    (hu : findById umkms umkm_id = some u)
    (hact : u.status = .active)
    (hne : items ≠ [])
    (hnd : (items.map Prod.fst).Nodup)
    (hpre : ∀ pq ∈ items, LinePre products umkm_id pq) :
    ∃ (products₁ : Store Product) (orders₁ : Store Order) (o : Order),
      create_order umkms orders products buyer_id umkm_id items none notes
          order_id now = (products₁, orders₁, .ok o) ∧
      (∀ pq ∈ items, ∃ (p : Product) (s : ℤ),
         findById products pq.1 = some p ∧ p.stock_quantity = some s ∧
         (findById products₁ pq.1).map Product.stock_quantity
           = some (some (s - pq.2))) ∧
      ∃ (products₂ : Store Product) (orders₂ : Store Order) (o' : Order),
        cancel_order umkms orders₁ products₁ o.id buyer_id reason now'
          = (products₂, orders₂, .ok o') ∧
        (∀ pq ∈ items,
           (findById products₂ pq.1).map Product.stock_quantity
             = (findById products pq.1).map Product.stock_quantity) := by
  obtain ⟨products₁, ois, heq, hmap, hpos, hunch, hper⟩ :=
    processItems_ok umkm_id items products [] hnd hpre
  have hois_ne : ois ≠ [] := by
    intro h
    apply hne
    rw [← hmap, h]
    rfl
  have htot : 0 < calculateTotal ois := by
    apply List.sum_pos
    · intro x hx
      obtain ⟨oi, hoi, rfl⟩ := List.mem_map.mp hx
      have hq := hpos oi hoi
      exact mul_pos (by exact_mod_cast hq.1) hq.2
    · simpa using hois_ne
  have hcreate := order_create_ok order_id buyer_id umkm_id ois notes now
    hois_ne htot
  set oRec : Order := ⟨order_id, buyer_id, umkm_id, ois, .placed, none, notes,
    calculateTotal ois, none, none⟩ with hoRec
  have hco : create_order umkms orders products buyer_id umkm_id items none
      notes order_id now = (products₁, save orders order_id oRec, .ok oRec) := by
    simp [create_order, hu, UMKM.can_accept_orders, hact, heq, hcreate, hoRec]
  refine ⟨products₁, save orders order_id oRec, oRec, hco, ?_, ?_⟩
  · intro pq hmem
    obtain ⟨p, s, h1, _, h3, h4⟩ := hper pq hmem
    exact ⟨p, s, h1, h3, by rw [h4]; rfl⟩
  · have hmapid : ois.map OrderItem.product_id = items.map Prod.fst := by
      rw [← hmap, List.map_map]
      rfl
    have hnd₂ : (ois.map OrderItem.product_id).Nodup := by
      rw [hmapid]
      exact hnd
    have hpre₂ : ∀ oi ∈ ois, ∃ (p : Product) (s : ℤ),
        findById products₁ oi.product_id = some p ∧ p.id = oi.product_id ∧
        p.stock_quantity = some s ∧ 0 < oi.quantity := by
      intro oi hoi
      have hmem : (oi.product_id, oi.quantity) ∈ items := by
        rw [← hmap]
        exact List.mem_map_of_mem _ hoi
      obtain ⟨p, s, _, h2, _, h4⟩ := hper (oi.product_id, oi.quantity) hmem
      exact ⟨{ p with stock_quantity := some (s - oi.quantity) },
        s - oi.quantity, h4, h2, rfl, (hpos oi hoi).1⟩
    obtain ⟨products₂, hres, _, hper₂⟩ := restoreItems_ok ois products₁ hnd₂ hpre₂
    set oCan : Order := { oRec with
      status := OrderStatus.cancelled
      cancelled_at := some now'
      cancellation_reason := reason } with hoCan
    have hcancel : oRec.cancel reason now' = .ok oCan := by
      simp [Order.cancel, Order.can_be_cancelled, hoRec, hoCan]
    have hcc : cancel_order umkms (save orders order_id oRec) products₁
        oRec.id buyer_id reason now'
        = (products₂, save (save orders order_id oRec) oCan.id oCan, .ok oCan) := by
      have hfo : findById (save orders order_id oRec) oRec.id = some oRec :=
        findById_save_self orders order_id oRec
      have hcbc : oRec.can_be_cancelled = true := by
        rw [hoRec]
        rfl
      simp [cancel_order, hfo, hres, hcancel, hcbc]
    refine ⟨products₂, save (save orders order_id oRec) oCan.id oCan, oCan,
      hcc, ?_⟩
    intro pq hmem
    have hpq : pq ∈ ois.map (fun oi => (oi.product_id, oi.quantity)) := by
      rw [hmap]
      exact hmem
    obtain ⟨oi, hoi, hfoi⟩ := List.mem_map.mp hpq
    obtain ⟨p', s', g1, g2, g3⟩ := hper₂ oi hoi
    obtain ⟨p, s, h1, _, h3, h4⟩ := hper (oi.product_id, oi.quantity)
      (by rw [← hmap]; exact List.mem_map_of_mem _ hoi)
    have h4' : findById products₁ oi.product_id
        = some { p with stock_quantity := some (s - oi.quantity) } := h4
    have hp' : p' = { p with stock_quantity := some (s - oi.quantity) } :=
      Option.some.inj (g1.symm.trans h4')
    have hs' : s' = s - oi.quantity := by
      rw [hp'] at g2
      exact (Option.some.inj g2).symm
    have h1' : findById products oi.product_id = some p := h1
    subst hfoi
    show (findById products₂ oi.product_id).map Product.stock_quantity
      = (findById products oi.product_id).map Product.stock_quantity
    rw [g3, h1']
    simp [hs', h3, Int.sub_add_cancel]

/-- Witness for C1: the round trip on a concrete two-line order (products
`10` and `13`, quantities 2 and 1, merchant `1` active). -/
theorem create_then_cancel_restores_stock_witness :
    ∃ (products₁ : Store Product) (orders₁ : Store Order) (o : Order),
      create_order [(1, uDemo)] [] [(10, pDemo), (13, pFin)] 7 1
          [(10, 2), (13, 1)] none none 50 0 = (products₁, orders₁, .ok o) ∧
      (∀ pq ∈ [((10:Nat), (2:ℤ)), (13, 1)], ∃ (p : Product) (s : ℤ),
         findById [(10, pDemo), (13, pFin)] pq.1 = some p ∧
         p.stock_quantity = some s ∧
         (findById products₁ pq.1).map Product.stock_quantity
           = some (some (s - pq.2))) ∧
      ∃ (products₂ : Store Product) (orders₂ : Store Order) (o' : Order),
        cancel_order [(1, uDemo)] orders₁ products₁ o.id 7 none 99
          = (products₂, orders₂, .ok o') ∧
        (∀ pq ∈ [((10:Nat), (2:ℤ)), (13, 1)],
           (findById products₂ pq.1).map Product.stock_quantity
             = (findById [(10, pDemo), (13, pFin)] pq.1).map
                 Product.stock_quantity) := by
  refine create_then_cancel_restores_stock [(1, uDemo)] [] [(10, pDemo), (13, pFin)]
    7 1 50 [(10, 2), (13, 1)] none none 0 99 uDemo rfl rfl (by simp)
    (by decide) ?_
  intro pq hmem
  simp only [List.mem_cons, List.not_mem_nil, or_false] at hmem
  rcases hmem with rfl | rfl
  · exact ⟨pDemo, 5, rfl, rfl, rfl, rfl, rfl, by decide, by decide,
      by norm_num [pDemo]⟩
  · exact ⟨pFin, 4, rfl, rfl, rfl, rfl, rfl, by decide, by decide,
      by norm_num [pFin]⟩

end UMKMcentre
